import Mathlib

/-!
Shallow embedding of the token-handling core of the js-accounts/accounts
repository: the AccountsClient token store, session refresh and impersonation
logic, and the GraphQLClient transport's token-acquisition policy.

The AccountsClient class itself (accounts-client.ts) is not among the provided
sources; only its test suite is. Its operations are therefore modelled from the
spec (sections 3, 4.1-4.3, 6, 7), with every behaviour that the repository's
own test suite pins down taken from those tests, which are source code of the
repository. The GraphQLClient portion is translated directly from
packages/graphql-client/src/graphql-client.ts.

Effects are made explicit: the localStorage-backed key-value store is a record
of the four optional token keys, thrown JS errors become the error side of
Except, and calls to the injected Transport are recorded as traces so that
"called exactly once with these arguments" is a statement about a list.
-/

/-- A TokenPair as issued by the authentication server:
two opaque strings, replaced wholesale, never mutated field-by-field. -/
structure Tokens where
  accessToken : String
  refreshToken : String
  deriving DecidableEq, Repr

/-- The StoredState of the Token Store: the four logical keys
(accounts:accessToken, accounts:refreshToken, accounts:originalAccessToken,
accounts:originalRefreshToken) mapped to optional string values.
Absence of a key means no session. -/
structure Store where
  accessToken : Option String
  refreshToken : Option String
  originalAccessToken : Option String
  originalRefreshToken : Option String
  deriving DecidableEq, Repr

/-- The store before any login: every key absent. -/
def emptyStore : Store := ⟨none, none, none, none⟩

/-- The access-token key of a slot: the original slot when original = true,
else the current slot. -/
def slotAccess (original : Bool) (s : Store) : Option String :=
  if original then s.originalAccessToken else s.accessToken

/-- The refresh-token key of a slot. -/
def slotRefresh (original : Bool) (s : Store) : Option String :=
  if original then s.originalRefreshToken else s.refreshToken

/-- The pair-completeness invariant of the spec's data model: within each slot
the two keys are present together or absent together. -/
def storeComplete (s : Store) : Prop :=
  s.accessToken.isSome = s.refreshToken.isSome ∧
  s.originalAccessToken.isSome = s.originalRefreshToken.isSome

namespace AccountsClient

/-- Modelled from the spec: accounts-client.ts is missing from the provided
sources. Token Store read, spec 4.1: reads the two keys of the addressed slot
and returns null unless both are present, else the pair. The original = true
slot holds the pre-impersonation pair. -/
def getTokens (original : Bool) (s : Store) : Option Tokens :=
  let a := if original then s.originalAccessToken else s.accessToken
  let r := if original then s.originalRefreshToken else s.refreshToken
  match a, r with
  | some a, some r => some ⟨a, r⟩
  | _, _ => none

/-- Modelled from the spec: accounts-client.ts is missing from the provided
sources. Token Store write, spec 4.1: writes both keys of the addressed slot. -/
def setTokens (t : Tokens) (original : Bool) (s : Store) : Store :=
  if original then
    { s with
        originalAccessToken := some t.accessToken
        originalRefreshToken := some t.refreshToken }
  else
    { s with
        accessToken := some t.accessToken
        refreshToken := some t.refreshToken }

/-- Modelled from the spec: accounts-client.ts is missing from the provided
sources. Token Store clear, spec 4.1: removes both keys of the addressed slot. -/
def clearTokens (original : Bool) (s : Store) : Store :=
  if original then
    { s with originalAccessToken := none, originalRefreshToken := none }
  else
    { s with accessToken := none, refreshToken := none }

/-- One primitive Token Store mutation. Every state-changing operation of the
client (login, refresh, logout, impersonation) factors through these two. -/
inductive StoreOp where
  | set (t : Tokens) (original : Bool)
  | clear (original : Bool)
  deriving DecidableEq, Repr

/-- Apply one primitive store mutation. -/
def applyOp (s : Store) : StoreOp → Store
  | .set t original => setTokens t original s
  | .clear original => clearTokens original s

/-- Apply a sequence of primitive store mutations, oldest first. -/
def applyOps (s : Store) (ops : List StoreOp) : Store := ops.foldl applyOp s

/-- Outcome of one refreshSession call: the final store, the returned value or
the propagated error, and the trace of Transport.refreshTokens invocations
(argument pairs, in call order). -/
structure RefreshOutcome where
  store : Store
  result : Except String (Option Tokens)
  transportCalls : List (String × String)
  deriving Repr

/-- Modelled from the spec: accounts-client.ts is missing from the provided
sources. Session Refresh Controller, spec 4.2, with the branch structure and
error handling pinned by the repository's refreshSession test suite
(src/unnamed/part_000, lines 159-211):
no stored pair returns null without consulting the expiry predicate; an
expired access token triggers one Transport.refreshTokens(accessToken,
refreshToken) call whose result is stored and returned (the refresh token's
own expiry is not consulted on this path, per the test that mocks the
predicate to always report expired and still expects the transport call);
otherwise an expired refresh token clears the pair and returns null; otherwise
the stored pair is returned unchanged. A throw from the predicate or the
transport is caught, the pair is cleared, and the error is rethrown, per the
test titled 'should clear the tokens and forward the error'. The expiry
predicate and the transport are parameters; a thrown JS error is the error
side of Except. -/
def refreshSession (isTokenExpired : String → Except String Bool)
    (transportRefreshTokens : String → String → Except String Tokens)
    (s : Store) : RefreshOutcome :=
  match getTokens false s with
  | none => ⟨s, .ok none, []⟩
  | some tokens =>
    match isTokenExpired tokens.accessToken with
    | .error e => ⟨clearTokens false s, .error e, []⟩
    | .ok true =>
      match transportRefreshTokens tokens.accessToken tokens.refreshToken with
      | .error e =>
        ⟨clearTokens false s, .error e, [(tokens.accessToken, tokens.refreshToken)]⟩
      | .ok refreshed =>
        ⟨setTokens refreshed false s, .ok (some refreshed),
          [(tokens.accessToken, tokens.refreshToken)]⟩
    | .ok false =>
      match isTokenExpired tokens.refreshToken with
      | .error e => ⟨clearTokens false s, .error e, []⟩
      | .ok true => ⟨clearTokens false s, .ok none, []⟩
      | .ok false => ⟨s, .ok (some tokens), []⟩

/-- The Transport.impersonate response shape of spec section 6:
authorized flag plus an optional impersonation TokenPair. -/
structure ImpersonateResponse where
  authorized : Bool
  tokens : Option Tokens
  deriving DecidableEq, Repr

/-- The impersonation failure kinds of spec section 7. -/
inductive ImpersonationError where
  | noAccessToken
  | alreadyImpersonating
  | unauthorized
  deriving DecidableEq, Repr

/-- Modelled from the spec: accounts-client.ts is missing from the provided
sources. ImpersonationState, spec section 3: derived from whether the
originalAccessToken key is present. -/
def isImpersonated (s : Store) : Bool := s.originalAccessToken.isSome

/-- Modelled from the spec: accounts-client.ts is missing from the provided
sources. Impersonation Overlay, spec 4.3: requires a current pair and no
active impersonation, calls Transport.impersonate with the current access
token and the target descriptor, fails without state change when the server
denies authorization (or when an authorized response carries no tokens), and
on success saves the current pair into the original slot before overwriting
the current slot with the impersonation pair. The store mutations are returned
as an ordered trace alongside the resulting store and the impersonation
tokens. -/
def impersonate (transportImpersonate : String → String → ImpersonateResponse)
    (target : String) (s : Store) :
    Except ImpersonationError (Store × List StoreOp × Tokens) :=
  match getTokens false s with
  | none => .error .noAccessToken
  | some current =>
    if isImpersonated s then .error .alreadyImpersonating
    else
      let res := transportImpersonate current.accessToken target
      if res.authorized then
        match res.tokens with
        | some impTokens =>
          let ops := [StoreOp.set current true, StoreOp.set impTokens false]
          .ok (applyOps s ops, ops, impTokens)
        | none => .error .unauthorized
      else .error .unauthorized

/-- Modelled from the spec: accounts-client.ts is missing from the provided
sources. Spec 4.3: reads the original pair; if absent, no-op; otherwise
restores it as the current pair and then clears the original slot. The store
mutations are returned as an ordered trace. -/
def stopImpersonation (s : Store) : Store × List StoreOp :=
  match getTokens true s with
  | none => (s, [])
  | some original =>
    let ops := [StoreOp.set original false, StoreOp.clear true]
    (applyOps s ops, ops)

end AccountsClient

/-- The GraphQL operation documents imported by
packages/graphql-client/src/graphql-client.ts. The source compares documents
by reference (mutation === RefreshTokensDocument); here each named document is
one constructor and the comparison is decidable equality. -/
inductive GqlDocument where
  | createUserDocument
  | addEmailDocument
  | authenticateWithServiceDocument
  | getTwoFactorSecretDocument
  | changePasswordDocument
  | logoutDocument
  | verifyEmailDocument
  | sendResetPasswordEmailDocument
  | sendVerificationEmailDocument
  | resetPasswordDocument
  | twoFactorSetDocument
  | twoFactorUnsetDocument
  | refreshTokensDocument
  | getUserDocument
  | impersonateDocument
  | authenticateDocument
  | challengeDocument
  | authenticatorsDocument
  | authenticatorsByMfaTokenDocument
  | associateDocument
  | associateByMfaTokenDocument
  deriving DecidableEq, Repr

/-- One call made on this.client (the injected AccountsClient) by the
GraphQLClient while preparing a request. -/
inductive ClientCall where
  | getTokens
  | refreshSession
  deriving DecidableEq, Repr

/-- The headers object built by mutate/query: initially empty, with the
Authorization entry added only when tokens were obtained. -/
structure Headers where
  authorization : Option String
  deriving DecidableEq, Repr

/-- The request handed to options.graphQLClient: the document plus the context
headers. -/
structure SentRequest where
  document : GqlDocument
  headers : Headers
  deriving DecidableEq, Repr

/-- The injected AccountsClient as the GraphQLClient observes it: the values
its getTokens() and refreshSession() calls would produce. -/
structure ClientStub where
  getTokensResult : Option Tokens
  refreshSessionResult : Option Tokens
  deriving DecidableEq, Repr

namespace GraphQLClient

/-- graphql-client.ts lines 335-338 and 362-365: start from an empty headers
object and set Authorization to the string consisting of the Bearer prefix
followed by the access token exactly when tokens is non-null. -/
def mkHeaders (tokens : Option Tokens) : Headers :=
  match tokens with
  | some t => ⟨some ("Bearer " ++ t.accessToken)⟩
  | none => ⟨none⟩

/-- What one mutate/query run does up to handing the request to
options.graphQLClient: the calls made on this.client, and the request sent.
The downstream response unwrapping (errors check, data[resultField]) is not
modelled; no claim concerns it. -/
structure OperationRun where
  clientCalls : List ClientCall
  request : SentRequest
  deriving DecidableEq, Repr

/-- GraphQLClient.mutate, graphql-client.ts lines 323-346: when the mutation
is the RefreshTokensDocument the tokens are read with this.client.getTokens()
(to avoid a nested refresh), otherwise with this.client.refreshSession(); the
Authorization header is set from the obtained tokens and the request is sent. -/
def mutate (client : ClientStub) (mutation : GqlDocument) : OperationRun :=
  let (calls, tokens) :=
    if mutation = GqlDocument.refreshTokensDocument then
      ([ClientCall.getTokens], client.getTokensResult)
    else
      ([ClientCall.refreshSession], client.refreshSessionResult)
  ⟨calls, ⟨mutation, mkHeaders tokens⟩⟩

/-- GraphQLClient.query, graphql-client.ts lines 355-374: always obtains
tokens with this.client.refreshSession(), then sets the Authorization header
from them and sends the request. -/
def query (client : ClientStub) (q : GqlDocument) : OperationRun :=
  ⟨[ClientCall.refreshSession], ⟨q, mkHeaders client.refreshSessionResult⟩⟩

/-- GraphQLClient.refreshTokens, graphql-client.ts lines 166-168: the
refresh-tokens mutation is issued through mutate with RefreshTokensDocument. -/
def refreshTokens (client : ClientStub) : OperationRun :=
  mutate client GqlDocument.refreshTokensDocument

/-- GraphQLClient.getUser, graphql-client.ts lines 147-154: a query with the
GetUserDocument. -/
def getUser (client : ClientStub) : OperationRun :=
  query client GqlDocument.getUserDocument

end GraphQLClient

section StoreClaims

open AccountsClient

/-- Primitive store mutations preserve pair-completeness. -/
theorem storeComplete_applyOp (s : Store) (op : StoreOp)
    (h : storeComplete s) : storeComplete (applyOp s op) := by
  rcases op with ⟨t, original⟩ | original <;> rcases original <;>
    simp [applyOp, setTokens, clearTokens, storeComplete] at h ⊢ <;>
    simp [h.1, h.2]

/-- Sequences of primitive store mutations preserve pair-completeness. -/
theorem storeComplete_applyOps (s : Store) (ops : List StoreOp)
    (h : storeComplete s) : storeComplete (applyOps s ops) := by
  induction ops generalizing s with
  | nil => exact h
  | cons op rest ih => exact ih (applyOp s op) (storeComplete_applyOp s op h)

/-- C6: for every store state and both slots, getTokens returns null iff at
least one of the slot's two keys is absent, and when both keys are present it
returns exactly the pair formed from them. -/
theorem getTokens_none_iff_key_absent (original : Bool) (s : Store) :
    (getTokens original s = none ↔
      slotAccess original s = none ∨ slotRefresh original s = none) ∧
    (∀ a r, slotAccess original s = some a → slotRefresh original s = some r →
      getTokens original s = some ⟨a, r⟩) := by
  rcases original <;>
    rcases ha : s.accessToken <;> rcases hr : s.refreshToken <;>
    rcases hoa : s.originalAccessToken <;> rcases hor : s.originalRefreshToken <;>
    constructor <;>
    simp [getTokens, slotAccess, slotRefresh, ha, hr, hoa, hor]

/-- Witness for C6 at a concrete store with both current keys present. -/
theorem getTokens_none_iff_key_absent_witness :
    getTokens false ⟨some "A", some "R", none, none⟩ = some ⟨"A", "R"⟩ :=
  (getTokens_none_iff_key_absent false ⟨some "A", some "R", none, none⟩).2
    "A" "R" rfl rfl

/-- C7: for every pair, slot and prior store state, setTokens followed by
getTokens on the same slot returns exactly the pair that was set. -/
theorem setTokens_getTokens_roundtrip (t : Tokens) (original : Bool) (s : Store) :
    getTokens original (setTokens t original s) = some t := by
  rcases original <;> simp [getTokens, setTokens]

/-- C8: setTokens writes both keys of the addressed slot, clearTokens removes
both, every primitive store mutation preserves pair-completeness, and hence
every store state reachable from the empty store is pair-complete: no
reachable state has exactly one of a slot's two keys present. -/
theorem token_slot_atomicity :
    (∀ (t : Tokens) (original : Bool) (s : Store),
      slotAccess original (setTokens t original s) = some t.accessToken ∧
      slotRefresh original (setTokens t original s) = some t.refreshToken) ∧
    (∀ (original : Bool) (s : Store),
      slotAccess original (clearTokens original s) = none ∧
      slotRefresh original (clearTokens original s) = none) ∧
    (∀ (s : Store) (op : StoreOp),
      storeComplete s → storeComplete (applyOp s op)) ∧
    (∀ ops : List StoreOp, storeComplete (applyOps emptyStore ops)) := by
  refine ⟨?_, ?_, storeComplete_applyOp, ?_⟩
  · intro t original s
    rcases original <;> simp [slotAccess, slotRefresh, setTokens]
  · intro original s
    rcases original <;> simp [slotAccess, slotRefresh, clearTokens]
  · intro ops
    exact storeComplete_applyOps emptyStore ops ⟨rfl, rfl⟩

/-- Witness for C8: the preservation conjunct applied to a concrete complete
store and a concrete mutation. -/
theorem token_slot_atomicity_witness :
    storeComplete (applyOp emptyStore (StoreOp.set ⟨"A", "R"⟩ false)) :=
  token_slot_atomicity.2.2.1 emptyStore (StoreOp.set ⟨"A", "R"⟩ false) ⟨rfl, rfl⟩

end StoreClaims

section RefreshClaims

open AccountsClient

/-- C1 counterexample: with a stored pair (A, R) and an expiry predicate that
throws Err, refreshSession forwards the error but does NOT leave the stored
keys at their prior values: both are removed, contradicting the claim that no
mutation happens on a non-expiry failure (this matches the repository's test
titled 'should clear the tokens and forward the error'). -/
theorem refreshSession_error_keeps_store_cex :
    (⟨some "A", some "R", none, none⟩ : Store).accessToken = some "A" ∧
    (refreshSession (fun _ => .error "Err") (fun _ _ => .ok ⟨"A2", "R2"⟩)
        ⟨some "A", some "R", none, none⟩).result = .error "Err" ∧
    (refreshSession (fun _ => .error "Err") (fun _ _ => .ok ⟨"A2", "R2"⟩)
        ⟨some "A", some "R", none, none⟩).store.accessToken = none ∧
    (refreshSession (fun _ => .error "Err") (fun _ _ => .ok ⟨"A2", "R2"⟩)
        ⟨some "A", some "R", none, none⟩).store.refreshToken = none :=
  ⟨rfl, rfl, rfl, rfl⟩

/-- C1 amended: on any failure other than a clean refresh-token-expiry branch
(expiry predicate throwing on either token, or the transport throwing), the
error is propagated to the caller unchanged and the stored pair is cleared:
the final store is exactly clearTokens of the prior store (so the original
slot is untouched but the current access/refresh keys are removed, not kept). -/
theorem refreshSession_error_propagates_and_clears
    (isExp : String → Except String Bool)
    (tr : String → String → Except String Tokens)
    (s : Store) (t : Tokens) (e : String)
    (hget : getTokens false s = some t) :
    (isExp t.accessToken = .error e →
      refreshSession isExp tr s = ⟨clearTokens false s, .error e, []⟩) ∧
    (isExp t.accessToken = .ok false → isExp t.refreshToken = .error e →
      refreshSession isExp tr s = ⟨clearTokens false s, .error e, []⟩) ∧
    (isExp t.accessToken = .ok true → tr t.accessToken t.refreshToken = .error e →
      refreshSession isExp tr s =
        ⟨clearTokens false s, .error e, [(t.accessToken, t.refreshToken)]⟩) := by
  refine ⟨fun h1 => ?_, fun h1 h2 => ?_, fun h1 h2 => ?_⟩
  · simp [refreshSession, hget, h1]
  · simp [refreshSession, hget, h1, h2]
  · simp [refreshSession, hget, h1, h2]

/-- Witness for the amended C1 at a concrete store and a throwing predicate. -/
theorem refreshSession_error_propagates_and_clears_witness :
    refreshSession (fun _ => .error "Err") (fun _ _ => .ok ⟨"A2", "R2"⟩)
        ⟨some "A", some "R", none, none⟩ =
      ⟨clearTokens false ⟨some "A", some "R", none, none⟩, .error "Err", []⟩ :=
  (refreshSession_error_propagates_and_clears (fun _ => .error "Err")
      (fun _ _ => .ok ⟨"A2", "R2"⟩) ⟨some "A", some "R", none, none⟩
      ⟨"A", "R"⟩ "Err" rfl).1 rfl

/-- C2: on a stored pair whose access token the predicate reports expired and
whose refresh token it reports valid, refreshSession performs exactly one
Transport.refreshTokens call with the stored (accessToken, refreshToken),
stores the returned pair, and returns it. -/
theorem refreshSession_expired_access_refreshes_once
    (isExp : String → Except String Bool)
    (tr : String → String → Except String Tokens)
    (s : Store) (t t2 : Tokens)
    (hget : getTokens false s = some t)
    (haccess : isExp t.accessToken = .ok true)
    (_hrefresh : isExp t.refreshToken = .ok false)
    (htr : tr t.accessToken t.refreshToken = .ok t2) :
    refreshSession isExp tr s =
      ⟨setTokens t2 false s, .ok (some t2), [(t.accessToken, t.refreshToken)]⟩ ∧
    getTokens false (refreshSession isExp tr s).store = some t2 := by
  have hrun : refreshSession isExp tr s =
      ⟨setTokens t2 false s, .ok (some t2), [(t.accessToken, t.refreshToken)]⟩ := by
    simp [refreshSession, hget, haccess, htr]
  refine ⟨hrun, ?_⟩
  rw [hrun]
  simp [getTokens, setTokens]

/-- Witness for C2: stored pair (A, R), access token expired, transport
returns (A2, R2). -/
theorem refreshSession_expired_access_refreshes_once_witness :
    refreshSession (fun tok => .ok (tok = "A")) (fun _ _ => .ok ⟨"A2", "R2"⟩)
        ⟨some "A", some "R", none, none⟩ =
      ⟨setTokens ⟨"A2", "R2"⟩ false ⟨some "A", some "R", none, none⟩,
        .ok (some ⟨"A2", "R2"⟩), [("A", "R")]⟩ :=
  (refreshSession_expired_access_refreshes_once (fun tok => .ok (tok = "A"))
      (fun _ _ => .ok ⟨"A2", "R2"⟩) ⟨some "A", some "R", none, none⟩
      ⟨"A", "R"⟩ ⟨"A2", "R2"⟩ rfl (by simp) (by simp) rfl).1

/-- C3 counterexample: with a predicate reporting EVERY token expired (so in
particular the refresh token) and a transport returning (A2, R2),
refreshSession does invoke Transport.refreshTokens (once, with (A, R)),
returns the new pair rather than null, and does not remove the keys —
because the expired access token is handled first. This contradicts the claim
that refresh-token expiry alone forces clear-and-null with no transport call. -/
theorem refreshSession_refresh_expired_cex :
    (refreshSession (fun _ => .ok true) (fun _ _ => .ok ⟨"A2", "R2"⟩)
        ⟨some "A", some "R", none, none⟩).transportCalls = [("A", "R")] ∧
    (refreshSession (fun _ => .ok true) (fun _ _ => .ok ⟨"A2", "R2"⟩)
        ⟨some "A", some "R", none, none⟩).result = .ok (some ⟨"A2", "R2"⟩) ∧
    (refreshSession (fun _ => .ok true) (fun _ _ => .ok ⟨"A2", "R2"⟩)
        ⟨some "A", some "R", none, none⟩).store.accessToken = some "A2" :=
  ⟨rfl, rfl, rfl⟩

/-- C3 amended: on a stored pair whose ACCESS token the predicate reports not
expired and whose refresh token it reports expired, refreshSession removes
both stored keys and returns null without invoking Transport.refreshTokens. -/
theorem refreshSession_refresh_expired_clears
    (isExp : String → Except String Bool)
    (tr : String → String → Except String Tokens)
    (s : Store) (t : Tokens)
    (hget : getTokens false s = some t)
    (haccess : isExp t.accessToken = .ok false)
    (hrefresh : isExp t.refreshToken = .ok true) :
    refreshSession isExp tr s = ⟨clearTokens false s, .ok none, []⟩ ∧
    (refreshSession isExp tr s).store.accessToken = none ∧
    (refreshSession isExp tr s).store.refreshToken = none := by
  have hrun : refreshSession isExp tr s = ⟨clearTokens false s, .ok none, []⟩ := by
    simp [refreshSession, hget, haccess, hrefresh]
  exact ⟨hrun, by rw [hrun]; simp [clearTokens], by rw [hrun]; simp [clearTokens]⟩

/-- Witness for the amended C3: access token valid, refresh token expired. -/
theorem refreshSession_refresh_expired_clears_witness :
    refreshSession (fun tok => .ok (tok = "R")) (fun _ _ => .ok ⟨"A2", "R2"⟩)
        ⟨some "A", some "R", none, none⟩ =
      ⟨clearTokens false ⟨some "A", some "R", none, none⟩, .ok none, []⟩ :=
  (refreshSession_refresh_expired_clears (fun tok => .ok (tok = "R"))
      (fun _ _ => .ok ⟨"A2", "R2"⟩) ⟨some "A", some "R", none, none⟩
      ⟨"A", "R"⟩ rfl (by simp) (by simp)).1

/-- C4: on a stored pair the predicate reports entirely valid, refreshSession
returns exactly the stored pair, makes zero transport calls, and leaves the
store untouched. -/
theorem refreshSession_valid_tokens_noop
    (isExp : String → Except String Bool)
    (tr : String → String → Except String Tokens)
    (s : Store) (t : Tokens)
    (hget : getTokens false s = some t)
    (haccess : isExp t.accessToken = .ok false)
    (hrefresh : isExp t.refreshToken = .ok false) :
    refreshSession isExp tr s = ⟨s, .ok (some t), []⟩ := by
  simp [refreshSession, hget, haccess, hrefresh]

/-- Witness for C4 at a concrete store with an always-valid predicate. -/
theorem refreshSession_valid_tokens_noop_witness :
    refreshSession (fun _ => .ok false) (fun _ _ => .ok ⟨"A2", "R2"⟩)
        ⟨some "A", some "R", none, none⟩ =
      ⟨⟨some "A", some "R", none, none⟩, .ok (some ⟨"A", "R"⟩), []⟩ :=
  refreshSession_valid_tokens_noop (fun _ => .ok false)
    (fun _ _ => .ok ⟨"A2", "R2"⟩) ⟨some "A", some "R", none, none⟩
    ⟨"A", "R"⟩ rfl rfl rfl

end RefreshClaims

section ImpersonationClaims

open AccountsClient

/-- C5: from a state with a current pair and no active impersonation, a
successful impersonate emits its two store writes in the order that saves the
current pair into the original slot BEFORE overwriting the current slot with
the impersonation pair (the returned op trace is exactly that list), and an
immediately following stopImpersonation leaves the current pair exactly equal
to the pre-impersonation pair with both original-slot keys absent. -/
theorem impersonate_stop_roundtrip
    (tImp : String → String → ImpersonateResponse) (target : String)
    (s : Store) (cur imp : Tokens)
    (hget : getTokens false s = some cur)
    (hnoimp : isImpersonated s = false)
    (hres : tImp cur.accessToken target = ⟨true, some imp⟩) :
    ∃ s1 : Store,
      impersonate tImp target s =
        .ok (s1, [StoreOp.set cur true, StoreOp.set imp false], imp) ∧
      getTokens true s1 = some cur ∧
      getTokens false s1 = some imp ∧
      getTokens false (stopImpersonation s1).1 = some cur ∧
      ((stopImpersonation s1).1).originalAccessToken = none ∧
      ((stopImpersonation s1).1).originalRefreshToken = none := by
  obtain ⟨ca, cr⟩ := cur
  obtain ⟨ia, ir⟩ := imp
  refine ⟨⟨some ia, some ir, some ca, some cr⟩, ?_, rfl, rfl, rfl, rfl, rfl⟩
  simp [impersonate, hget, hnoimp, hres, applyOps, applyOp, setTokens]

/-- Witness for C5: logged in as (A, R), impersonation tokens (IA, IR). -/
theorem impersonate_stop_roundtrip_witness :
    ∃ s1 : Store,
      impersonate (fun _ _ => ⟨true, some ⟨"IA", "IR"⟩⟩) "target"
          ⟨some "A", some "R", none, none⟩ =
        .ok (s1, [StoreOp.set ⟨"A", "R"⟩ true, StoreOp.set ⟨"IA", "IR"⟩ false],
          ⟨"IA", "IR"⟩) ∧
      getTokens true s1 = some ⟨"A", "R"⟩ ∧
      getTokens false s1 = some ⟨"IA", "IR"⟩ ∧
      getTokens false (stopImpersonation s1).1 = some ⟨"A", "R"⟩ ∧
      ((stopImpersonation s1).1).originalAccessToken = none ∧
      ((stopImpersonation s1).1).originalRefreshToken = none :=
  impersonate_stop_roundtrip (fun _ _ => ⟨true, some ⟨"IA", "IR"⟩⟩) "target"
    ⟨some "A", some "R", none, none⟩ ⟨"A", "R"⟩ ⟨"IA", "IR"⟩ rfl rfl rfl

end ImpersonationClaims

section GraphQLClaims

/-- mkHeaders sets the Authorization entry exactly when tokens are non-null. -/
theorem mkHeaders_authorization (tokens : Option Tokens) :
    GraphQLClient.mkHeaders tokens =
      ⟨tokens.map fun t => "Bearer " ++ t.accessToken⟩ := by
  cases tokens <;> rfl

/-- C9: a mutate run on the refresh-tokens document obtains tokens via one
client.getTokens() call and never calls refreshSession; a mutate run on any
other document, and every query run, obtains tokens via one
client.refreshSession() call. -/
theorem mutate_query_refresh_policy (client : ClientStub) (doc : GqlDocument) :
    (doc = GqlDocument.refreshTokensDocument →
      (GraphQLClient.mutate client doc).clientCalls = [ClientCall.getTokens]) ∧
    (doc ≠ GqlDocument.refreshTokensDocument →
      (GraphQLClient.mutate client doc).clientCalls = [ClientCall.refreshSession]) ∧
    (GraphQLClient.query client doc).clientCalls = [ClientCall.refreshSession] := by
  refine ⟨fun h => ?_, fun h => ?_, rfl⟩
  · simp [GraphQLClient.mutate, h]
  · simp [GraphQLClient.mutate, h]

/-- Witness for C9: the refresh-tokens mutation reads tokens, it does not
refresh. -/
theorem mutate_query_refresh_policy_witness :
    (GraphQLClient.mutate ⟨none, none⟩ GqlDocument.refreshTokensDocument).clientCalls =
      [ClientCall.getTokens] :=
  (mutate_query_refresh_policy ⟨none, none⟩ GqlDocument.refreshTokensDocument).1 rfl

/-- C10: for every mutate or query run, the outgoing Authorization header is
the map of the obtained tokens under the function prepending the Bearer prefix
to the access token: it is present (and equal to that string) exactly when the
obtained tokens are non-null, and absent when they are null. -/
theorem request_authorization_header (client : ClientStub) (doc : GqlDocument) :
    (GraphQLClient.mutate client doc).request.headers.authorization =
      (if doc = GqlDocument.refreshTokensDocument then client.getTokensResult
        else client.refreshSessionResult).map
        (fun t => "Bearer " ++ t.accessToken) ∧
    (GraphQLClient.query client doc).request.headers.authorization =
      client.refreshSessionResult.map (fun t => "Bearer " ++ t.accessToken) := by
  constructor
  · by_cases h : doc = GqlDocument.refreshTokensDocument <;>
      simp [GraphQLClient.mutate, h, mkHeaders_authorization]
  · simp [GraphQLClient.query, mkHeaders_authorization]

end GraphQLClaims
